import Mathlib

/-!
Verification of the starkiller generation/query pipelines.

Shallow embedding of the Python services under `api/services`:
`DataProcessor.dataframe_to_dict` (services/data/processor.py),
`get_connector` (services/data/connectors/__init__.py),
`DashboardGenerationOrchestrator` (services/generation/orchestrator.py),
`QueryExecutor.execute` (services/query/executor.py), and the response
handling of `AnthropicProvider.recommend_visualization` /
`_get_default_visualization` (services/llm/anthropic.py, bedrock.py).

External effects (database lookups, network calls to the connector and the
LLM service, the wall clock) are passed in as explicit outcome values:
each `Except String _` field of an environment structure stands for the
raised-exception / returned-value outcome of the corresponding awaited
call, with the exception's `str(e)` as the error string.  JSON values
returned by `json.loads` are modelled by the inductive `Json`.
-/

/-- JSON values, as produced by `json.loads` on an LLM response. -/
inductive Json where
  | null
  | bool (b : Bool)
  | num (n : Int)
  | str (s : String)
  | arr (elems : List Json)
  | obj (fields : List (String × Json))
deriving Repr

/-- Python truthiness of a JSON value (`if viz_config:`): `None`, `False`,
`0`, `""`, `[]` and `{}` are falsy, everything else truthy. -/
def Json.truthy : Json → Bool
  | .null => false
  | .bool b => b
  | .num n => n != 0
  | .str s => s ≠ ""
  | .arr elems => !elems.isEmpty
  | .obj fields => !fields.isEmpty

/-- Embedding of `d.get(key, default)` on a JSON object; on any non-object the attribute
access `.get` raises `AttributeError`. -/
def Json.dictGet (j : Json) (key : String) (dflt : Json) : Except String Json :=
  match j with
  | .obj fields => .ok ((fields.lookup key).getD dflt)
  | _ => .error "AttributeError: object has no attribute get"

/-- A pandas cell value as seen by `dataframe_to_dict`: either a missing
value (`NaN`/`NaT`, for which `pd.isna` is true), a `pd.Timestamp`
carrying its `isoformat()` string, or an ordinary scalar. -/
inductive CellValue where
  | nan
  | timestamp (iso : String)
  | int (n : Int)
  | str (s : String)
  | bool (b : Bool)
deriving Repr, DecidableEq

/-- A JSON-safe cell after cleaning. -/
inductive JsonCell where
  | null
  | int (n : Int)
  | str (s : String)
  | bool (b : Bool)
deriving Repr, DecidableEq

/-- The per-cell cleanup in `DataProcessor.dataframe_to_dict`:
`pd.isna(value)` becomes `None`, a `pd.Timestamp` becomes its
`isoformat()` string, everything else passes through. -/
def cleanCell : CellValue → JsonCell
  | .nan => .null
  | .timestamp iso => .str iso
  | .int n => .int n
  | .str s => .str s
  | .bool b => .bool b

/-- A pandas DataFrame: a column list and rows of cells, each row aligned
with the columns (pandas cannot represent ragged rows). -/
structure DataFrame where
  columns : List String
  rows : List (List CellValue)
  hrows : ∀ r ∈ rows, r.length = columns.length

/-- Embedding of `df.empty` in pandas: true when either axis has length zero. -/
def DataFrame.empty (df : DataFrame) : Bool :=
  df.rows.isEmpty || df.columns.isEmpty

/-- The dictionary produced by `DataProcessor.dataframe_to_dict`: keys
`columns`, `rows`, `row_count`.  A row dictionary is modelled as an
association list; it coincides with the Python `dict` produced by
`to_dict(orient="records")` whenever the column names are distinct. -/
structure TabularDict where
  columns : List String
  rows : List (List (String × JsonCell))
  row_count : Nat
deriving Repr, DecidableEq

/-- Embedding of `DataProcessor.dataframe_to_dict` (services/data/processor.py):
empty frames short-circuit to `{columns, [], 0}`; otherwise
`to_dict(orient="records")` pairs each row's cells with the column names
and every cell is cleaned (`pd.isna` to `None`, `pd.Timestamp` to its
isoformat string). -/
def DataProcessor.dataframe_to_dict (df : DataFrame) : TabularDict :=
  if df.empty then
    { columns := df.columns, rows := [], row_count := 0 }
  else
    { columns := df.columns
      rows := df.rows.map (fun r => (df.columns.zip r).map (fun p => (p.1, cleanCell p.2)))
      row_count := df.rows.length }

/-- The connector classes the registry can hand out, plus the `CSVConnector`
class that exists in services/data/connectors/csv.py. -/
inductive ConnectorKind where
  | postgresql
  | csv
deriving Repr, DecidableEq

/-- The `connectors` dictionary inside `get_connector`
(services/data/connectors/__init__.py): only `"postgresql"` is registered. -/
def connectorsRegistry : List (String × ConnectorKind) :=
  [("postgresql", ConnectorKind.postgresql)]

/-- Embedding of `get_connector(source_type, connection_config)`: dictionary lookup,
`ValueError` when the source type is not registered. -/
def get_connector (source_type : String) : Except String ConnectorKind :=
  match connectorsRegistry.lookup source_type with
  | some c => .ok c
  | none => .error ("Unknown data source type: " ++ source_type)

/-- One entry of `schema_dict.get("tables", [])`: a table dictionary whose
`.get("name", "")` is modelled by the `name` field (an absent key is the
empty string). -/
structure SchemaTable where
  name : String
deriving Repr, DecidableEq

/-- The `schema_dict` consumed by `_get_fallback_query`: its
`.get("tables", [])` list (a flat-source schema without a `tables` key is
the empty list). -/
structure SchemaDict where
  tables : List SchemaTable
deriving Repr, DecidableEq

/-- Embedding of `DashboardGenerationOrchestrator._get_fallback_query`
(services/generation/orchestrator.py): for `"postgresql"`, select from the
first table when it has a non-empty name, else `SELECT 1`; for every other
source type, `df.head(100)` as pandas code. -/
def DashboardGenerationOrchestrator._get_fallback_query
    (source_type : String) (schema_dict : SchemaDict) : String × String :=
  if source_type = "postgresql" then
    match schema_dict.tables with
    | [] => ("SELECT 1", "sql")
    | t :: _ =>
      if t.name ≠ "" then
        ("SELECT * FROM \"" ++ t.name ++ "\" LIMIT 100", "sql")
      else
        ("SELECT 1", "sql")
  else
    ("df.head(100)", "pandas")

/-- Embedding of `AnthropicProvider._get_default_visualization` (services/llm/anthropic.py):
the deterministic default chart, built as the JSON dictionary the source
returns. -/
def AnthropicProvider._get_default_visualization
    (columns : List String) (natural_language : String) : Json :=
  let x_key := match columns with | [] => "x" | c :: _ => c
  let y_key := match columns with | [] => "y" | [c] => c | _ :: c :: _ => c
  Json.obj [
    ("chart_type", .str "bar"),
    ("title", .str (if natural_language.length > 50
                    then natural_language.take 50 ++ "..." else natural_language)),
    ("description", .str "Data visualization"),
    ("chart_config", .obj [
      ("x_axis", .obj [("data_key", .str x_key), ("label", .str x_key)]),
      ("y_axis", .obj [("data_key", .str y_key), ("label", .str y_key)]),
      ("series", .arr [.obj [("data_key", .str y_key), ("name", .str y_key),
                             ("color", .str "#8884d8")]]),
      ("legend", .bool true),
      ("tooltip", .bool true),
      ("grid", .bool true)]),
    ("reasoning", .str "Default bar chart visualization")]

/-- Embedding of `BedrockProvider._get_default_visualization` (services/llm/bedrock.py):
textually the same construction as the Anthropic variant. -/
def BedrockProvider._get_default_visualization
    (columns : List String) (natural_language : String) : Json :=
  let x_key := match columns with | [] => "x" | c :: _ => c
  let y_key := match columns with | [] => "y" | [c] => c | _ :: c :: _ => c
  Json.obj [
    ("chart_type", .str "bar"),
    ("title", .str (if natural_language.length > 50
                    then natural_language.take 50 ++ "..." else natural_language)),
    ("description", .str "Data visualization"),
    ("chart_config", .obj [
      ("x_axis", .obj [("data_key", .str x_key), ("label", .str x_key)]),
      ("y_axis", .obj [("data_key", .str y_key), ("label", .str y_key)]),
      ("series", .arr [.obj [("data_key", .str y_key), ("name", .str y_key),
                             ("color", .str "#8884d8")]]),
      ("legend", .bool true),
      ("tooltip", .bool true),
      ("grid", .bool true)]),
    ("reasoning", .str "Default bar chart visualization")]

/-- Outcome of the Anthropic client call plus the fence-stripping and
`json.loads` of the response text, as consumed by `recommend_visualization`:
`.error e` is a raised API exception, `.ok none` a response body whose
`json.loads` raised `JSONDecodeError`, `.ok (some j)` a successful parse. -/
abbrev LLMParseOutcome := Except String (Option Json)

/-- Response handling of `AnthropicProvider.recommend_visualization`
(services/llm/anthropic.py, lines 140-168): an API exception is re-raised
as `LLMResponseError`; a `JSONDecodeError` is caught and replaced by the
default visualization; any successfully parsed JSON value is returned
as-is, with no structural validation. -/
def AnthropicProvider.recommend_visualization
    (query_result : TabularDict) (natural_language : String)
    (llmCall : LLMParseOutcome) : Except String Json :=
  match llmCall with
  | .error e => .error ("Failed to recommend visualization: " ++ e)
  | .ok none =>
      .ok (AnthropicProvider._get_default_visualization query_result.columns natural_language)
  | .ok (some result) => .ok result

/-- The dictionary returned by an LLM provider's `generate_query`
(always carrying `query`, `query_type`, `explanation` keys), read back by
the pipelines via `.get`. -/
structure QueryInfoDict where
  query : String
  query_type : String
  explanation : String
deriving Repr, DecidableEq

/-- A `DataSource` model row as the pipelines read it. -/
structure DataSourceRec where
  id : String
  name : String
  source_type : String
  is_active : Bool
deriving Repr, DecidableEq

/-- Values of `Query.status`. -/
inductive Status where
  | pending
  | processing
  | completed
  | failed
deriving Repr, DecidableEq

/-- A `Visualization` model row as built in `QueryExecutor.execute`. -/
structure VisualizationRec where
  title : Json
  description : Json
  chart_type : Json
  chart_config : Json

/-- The `Visualization(...)` construction in `QueryExecutor.execute`
(lines 101-110): four `viz_config.get` calls, each of which raises
`AttributeError` when `viz_config` is not a dictionary. -/
def buildVisualization (viz_config : Json) : Except String VisualizationRec := do
  let title ← viz_config.dictGet "title" (.str "Query Result")
  let description ← viz_config.dictGet "description" .null
  let chart_type ← viz_config.dictGet "chart_type" (.str "bar")
  let chart_config ← viz_config.dictGet "chart_config" (.obj [])
  return ⟨title, description, chart_type, chart_config⟩

/-- Environment of one `QueryExecutor.execute` run: the outcome of each
external call it awaits, and the elapsed wall-clock milliseconds stamped
at the terminal transition. -/
structure ExecEnv where
  getDataSource : Except String DataSourceRec
  getSchema : Except String SchemaDict
  generateQuery : Except String QueryInfoDict
  executeQuery : String → Except String DataFrame
  recommendViz : Except String Json
  elapsedMs : Nat

/-- The `Query` model row owned by a run, together with the trace of
status values assigned to it (the record is created with
`status="processing"`). -/
structure QueryRecord where
  natural_language_query : String
  status : Status
  generated_query : Option String
  query_type : Option String
  result_data : Option TabularDict
  error_message : Option String
  execution_time_ms : Option Nat
  statusTrace : List Status
  visualization : Option VisualizationRec

/-- The `except` block of `QueryExecutor.execute` (lines 121-127):
status to `failed`, `error_message = str(e)`, elapsed time stamped. -/
def failRun (q : QueryRecord) (e : String) (ms : Nat) : QueryRecord :=
  { q with status := .failed, error_message := some e,
           execution_time_ms := some ms,
           statusTrace := q.statusTrace ++ [Status.failed] }

/-- The completion step of `QueryExecutor.execute` (lines 112-114). -/
def completeRun (q : QueryRecord) (ms : Nat) : QueryRecord :=
  { q with status := .completed, execution_time_ms := some ms,
           statusTrace := q.statusTrace ++ [Status.completed] }

/-- Embedding of `QueryExecutor.execute` (services/query/executor.py): the whole
pipeline body runs inside one `try`; any raised exception transitions the
run to `failed` (the subsequent `raise QueryException` hands the failed
record's error to the route and is not part of the record's state).
Note there is no fallback query here: a failed `execute_query` falls
directly into the `except` block.  `_generate_visualization` catches every
exception of `recommend_visualization` and returns `None`; the returned
`viz_config` is then only used when truthy, and the `Visualization`
construction itself can still raise (caught by the outer `except`). -/
def QueryExecutor.execute (natural_language_query : String) (env : ExecEnv) : QueryRecord :=
  let q0 : QueryRecord :=
    { natural_language_query := natural_language_query, status := .processing,
      generated_query := none, query_type := none, result_data := none,
      error_message := none, execution_time_ms := none,
      statusTrace := [Status.processing], visualization := none }
  match env.getDataSource with
  | .error e => failRun q0 e env.elapsedMs
  | .ok data_source =>
    match get_connector data_source.source_type with
    | .error e => failRun q0 e env.elapsedMs
    | .ok _connector =>
      match env.getSchema with
      | .error e => failRun q0 e env.elapsedMs
      | .ok _schema_info =>
        match env.generateQuery with
        | .error e => failRun q0 e env.elapsedMs
        | .ok llm_response =>
          let q1 := { q0 with generated_query := some llm_response.query,
                              query_type := some llm_response.query_type }
          match env.executeQuery llm_response.query with
          | .error e => failRun q1 e env.elapsedMs
          | .ok result_df =>
            let q2 := { q1 with
              result_data := some (DataProcessor.dataframe_to_dict result_df) }
            if (DataProcessor.dataframe_to_dict result_df).rows.isEmpty then
              completeRun q2 env.elapsedMs
            else
              let viz_config : Option Json :=
                match env.recommendViz with
                | .ok v => some v
                | .error _ => none
              match viz_config with
              | none => completeRun q2 env.elapsedMs
              | some vc =>
                if vc.truthy then
                  match buildVisualization vc with
                  | .error e => failRun q2 e env.elapsedMs
                  | .ok viz => completeRun { q2 with visualization := some viz } env.elapsedMs
                else
                  completeRun q2 env.elapsedMs

/-- Environment of one `_process_data_source` call for one data source:
the outcome of the connector's `get_schema`, of the LLM's `generate_query`,
and of `connector.execute_query` as a function of the executed query
string. -/
structure SourceEnv where
  getSchema : Except String SchemaDict
  generateQuery : Except String QueryInfoDict
  executeQuery : String → Except String DataFrame

/-- Embedding of `DashboardGenerationOrchestrator._process_data_source`
(services/generation/orchestrator.py, lines 207-267): connector resolution,
schema fetch, LLM query generation, execution; on execution failure the
fallback query is executed once, a successful fallback replacing
`query_info` with the fallback query and the explanation
`"Fallback query (LLM query failed)"`, a failed fallback re-raising the
fallback's error.  Prompt construction is absorbed into the
`generateQuery` oracle. -/
def DashboardGenerationOrchestrator._process_data_source
    (data_source : DataSourceRec) (env : SourceEnv) :
    Except String (SchemaDict × TabularDict × QueryInfoDict) :=
  match get_connector data_source.source_type with
  | .error e => .error e
  | .ok _connector =>
    match env.getSchema with
    | .error e => .error e
    | .ok schema_dict =>
      match env.generateQuery with
      | .error e => .error e
      | .ok query_info =>
        match env.executeQuery query_info.query with
        | .ok result_df =>
            .ok (schema_dict, DataProcessor.dataframe_to_dict result_df, query_info)
        | .error _e =>
          let fb := DashboardGenerationOrchestrator._get_fallback_query
            data_source.source_type schema_dict
          match env.executeQuery fb.1 with
          | .ok result_df =>
              .ok (schema_dict, DataProcessor.dataframe_to_dict result_df,
                   ⟨fb.1, fb.2, "Fallback query (LLM query failed)"⟩)
          | .error fallback_error => .error fallback_error

/-- The exceptions `DashboardGenerationOrchestrator.generate` raises. -/
inductive GenError where
  | noDataSources (message : String)
  | queryExecution (message : String) (errorDetail : String)
  | codeError (message : String) (errorDetail : String)
deriving Repr, DecidableEq

/-- A `Dashboard` model row with its associated data sources. -/
structure DashboardRec where
  id : String
  title : String
  description : Option String
  data_sources : List DataSourceRec
deriving Repr, DecidableEq

/-- Externally visible calls made by `generate`: one per data source whose
processing is attempted (covering its connector and LLM traffic), and the
single React-code generation call. -/
inductive CallEvent where
  | processSource (id : String)
  | generateReact
deriving Repr, DecidableEq

/-- One entry of the `schemas` list built in `generate`. -/
structure SchemaEntry where
  name : String
  id : String
  schema : SchemaDict
deriving Repr, DecidableEq

/-- One entry of the `data_samples` list built in `generate`. -/
structure SampleEntry where
  name : String
  id : String
  columns : List String
  rows : List (List (String × JsonCell))
  total_rows : Nat
deriving Repr, DecidableEq

/-- One `GeneratedQuery` schema object built in `generate`. -/
structure GeneratedQueryEntry where
  data_source_id : String
  data_source_name : String
  query : String
  query_type : String
  row_count : Nat
deriving Repr, DecidableEq

/-- The dictionary returned by `generate_react_visualization` (always
carrying `react_code`, `components`, `reasoning`, `model` keys); each
component is taken as a JSON dictionary. -/
structure ReactGenResult where
  react_code : String
  components : List (List (String × Json))
  reasoning : String
  model : String

/-- A `GeneratedComponent` schema object as parsed in `generate`
(lines 164-172), with the source's `.get` defaults. -/
structure GeneratedComponent where
  name : Json
  chart_type : Json
  description : Json
  data_keys : Json

/-- The component parsing inside `generate`. -/
def parseComponent (comp : List (String × Json)) : GeneratedComponent :=
  { name := (comp.lookup "name").getD (.str "Component")
    chart_type := (comp.lookup "chart_type").getD (.str "bar")
    description := (comp.lookup "description").getD (.str "")
    data_keys := (comp.lookup "data_keys").getD (.arr []) }

/-- The `GenerateResponse` schema object assembled at the end of
`generate` (`metadata` flattened into its two keys). -/
structure GenerateResponse where
  dashboard_id : String
  dashboard_title : String
  react_code : String
  components : List GeneratedComponent
  data_sources_used : List String
  queries_generated : List GeneratedQueryEntry
  sample_data : List (String × List (List (String × JsonCell)))
  execution_time_ms : Nat
  metadata_model : String
  metadata_reasoning : String

/-- The `for data_source in dashboard.data_sources` loop of `generate`
(lines 78-122): inactive sources are skipped; each active source is
processed, a failure raising `GenerationQueryExecutionError` naming the
source (discarding everything accumulated so far); successes accumulate
the `schemas`, `data_samples`, `queries_generated` and
`data_sources_used` lists in order.  `penv i` is the environment of the
source at absolute position `i`; the second component is the trace of
calls made. -/
def processSources (penv : Nat → SourceEnv) :
    List DataSourceRec → Nat →
    Except GenError
      (List SchemaEntry × List SampleEntry × List GeneratedQueryEntry × List String)
      × List CallEvent
  | [], _ => (.ok ([], [], [], []), [])
  | data_source :: rest, i =>
    if data_source.is_active then
      match DashboardGenerationOrchestrator._process_data_source data_source (penv i) with
      | .error e =>
        (.error (.queryExecution
            ("Failed to process data source '" ++ data_source.name ++ "'") e),
         [CallEvent.processSource data_source.id])
      | .ok (schema_info, sample_data, query_info) =>
        let rest_result := processSources penv rest (i + 1)
        (match rest_result.1 with
         | .error e => .error e
         | .ok (schemas, samples, queries, used) =>
           .ok ({ name := data_source.name, id := data_source.id,
                  schema := schema_info } :: schemas,
                { name := data_source.name, id := data_source.id,
                  columns := sample_data.columns, rows := sample_data.rows,
                  total_rows := sample_data.row_count } :: samples,
                { data_source_id := data_source.id,
                  data_source_name := data_source.name,
                  query := query_info.query, query_type := query_info.query_type,
                  row_count := sample_data.row_count } :: queries,
                data_source.id :: used),
         CallEvent.processSource data_source.id :: rest_result.2)
    else
      processSources penv rest (i + 1)

/-- Embedding of `DashboardGenerationOrchestrator.generate`
(services/generation/orchestrator.py, lines 38-189), for a dashboard that
exists (`_get_dashboard` succeeded).  `reactGen` is the outcome of the
single `generate_react_visualization` call; `elapsedMs` the stamped
elapsed time.  Returns the raised exception or the assembled response,
paired with the trace of external calls. -/
def DashboardGenerationOrchestrator.generate (dashboard : DashboardRec)
    (penv : Nat → SourceEnv) (reactGen : Except String ReactGenResult)
    (elapsedMs : Nat) :
    Except GenError GenerateResponse × List CallEvent :=
  if dashboard.data_sources.isEmpty then
    (.error (.noDataSources
        ("Dashboard '" ++ dashboard.title ++ "' has no associated data sources")), [])
  else
    match processSources penv dashboard.data_sources 0 with
    | (.error e, tr) => (.error e, tr)
    | (.ok (_schemas, samples, queries, used), tr) =>
      if used.isEmpty then
        (.error (.noDataSources "No active data sources available for generation"), tr)
      else
        match reactGen with
        | .error e =>
          (.error (.codeError "Failed to generate React visualization code" e),
           tr ++ [CallEvent.generateReact])
        | .ok llm_response =>
          (.ok { dashboard_id := dashboard.id, dashboard_title := dashboard.title,
                 react_code := llm_response.react_code,
                 components := llm_response.components.map parseComponent,
                 data_sources_used := used,
                 queries_generated := queries,
                 sample_data := samples.map (fun s => (s.name, s.rows)),
                 execution_time_ms := elapsedMs,
                 metadata_model := llm_response.model,
                 metadata_reasoning := llm_response.reasoning },
           tr ++ [CallEvent.generateReact])

/-- Pure key lookup on a JSON object (`none` on non-objects), used to state
properties of the JSON dictionaries the providers build. -/
def Json.lookupKey : Json → String → Option Json
  | .obj fields, key => fields.lookup key
  | _, _ => none

/-- Path lookup through nested JSON objects. -/
def Json.path (j : Json) : List String → Option Json
  | [] => some j
  | key :: rest =>
    match j.lookupKey key with
    | some j' => j'.path rest
    | none => none

/-- C10: the connector registry recognizes only the source type
`"postgresql"`; every other source type (including `"csv"`) raises
`ValueError`, and the registry never returns the `CSVConnector` class. -/
theorem c10_registry_only_postgresql :
    get_connector "postgresql" = .ok ConnectorKind.postgresql
    ∧ (∀ source_type : String, source_type ≠ "postgresql" →
        get_connector source_type
          = .error ("Unknown data source type: " ++ source_type))
    ∧ ∀ source_type : String, get_connector source_type ≠ .ok ConnectorKind.csv := by
  refine ⟨rfl, ?_, ?_⟩
  · intro source_type h
    simp only [get_connector, connectorsRegistry, List.lookup]
    rw [show (source_type == "postgresql") = false from beq_eq_false_iff_ne.mpr h]
  · intro source_type
    by_cases h : source_type = "postgresql"
    · subst h; simp [get_connector, connectorsRegistry]
    · simp only [get_connector, connectorsRegistry, List.lookup]
      rw [show (source_type == "postgresql") = false from beq_eq_false_iff_ne.mpr h]
      simp

/-- C10 witness: the registry rejects `"csv"` concretely. -/
theorem c10_witness :
    get_connector "csv" = .error "Unknown data source type: csv"
    ∧ get_connector "csv" ≠ .ok ConnectorKind.csv :=
  ⟨c10_registry_only_postgresql.2.1 "csv" (by decide),
   c10_registry_only_postgresql.2.2 "csv"⟩

/-- C3 counterexample: a postgresql schema whose first table has an empty
name while a later table has a non-empty one.  The claim's condition
("at least one table with a non-empty name") holds, so the claim predicts
a `SELECT * FROM "<first table>" LIMIT 100` query, yet the code returns
`SELECT 1`. -/
theorem c3_counterexample :
    (∃ t ∈ (SchemaDict.mk [⟨""⟩, ⟨"orders"⟩]).tables, t.name ≠ "")
    ∧ DashboardGenerationOrchestrator._get_fallback_query "postgresql"
        ⟨[⟨""⟩, ⟨"orders"⟩]⟩ = ("SELECT 1", "sql")
    ∧ DashboardGenerationOrchestrator._get_fallback_query "postgresql"
        ⟨[⟨""⟩, ⟨"orders"⟩]⟩ ≠ ("SELECT * FROM \"\" LIMIT 100", "sql") := by
  refine ⟨⟨⟨"orders"⟩, by simp, by simp⟩, rfl, ?_⟩
  simp [DashboardGenerationOrchestrator._get_fallback_query]

/-- C3 (amended): the fallback query is a deterministic function of
`source_type` and the schema only; for `"postgresql"` it is
`SELECT * FROM "<first table>" LIMIT 100` with type `sql` exactly when the
FIRST table in the schema exists and has a non-empty name, and `SELECT 1`
with type `sql` otherwise; for every other source type it is
`df.head(100)` with type `pandas`. -/
theorem c3_fallback_query_amended (source_type : String) (schema_dict : SchemaDict) :
    (source_type = "postgresql" →
      (schema_dict.tables = [] →
        DashboardGenerationOrchestrator._get_fallback_query source_type schema_dict
          = ("SELECT 1", "sql"))
      ∧ (∀ t rest, schema_dict.tables = t :: rest →
          (t.name ≠ "" →
            DashboardGenerationOrchestrator._get_fallback_query source_type schema_dict
              = ("SELECT * FROM \"" ++ t.name ++ "\" LIMIT 100", "sql"))
          ∧ (t.name = "" →
            DashboardGenerationOrchestrator._get_fallback_query source_type schema_dict
              = ("SELECT 1", "sql"))))
    ∧ (source_type ≠ "postgresql" →
        DashboardGenerationOrchestrator._get_fallback_query source_type schema_dict
          = ("df.head(100)", "pandas")) := by
  constructor
  · intro hpg
    subst hpg
    constructor
    · intro hnil
      simp [DashboardGenerationOrchestrator._get_fallback_query, hnil]
    · intro t rest hcons
      constructor
      · intro hname
        simp [DashboardGenerationOrchestrator._get_fallback_query, hcons, hname]
      · intro hname
        simp [DashboardGenerationOrchestrator._get_fallback_query, hcons, hname]
  · intro hne
    simp [DashboardGenerationOrchestrator._get_fallback_query, hne]

/-- C3 witness: concrete evaluations through the amended theorem. -/
theorem c3_witness :
    DashboardGenerationOrchestrator._get_fallback_query "postgresql" ⟨[⟨"orders"⟩]⟩
      = ("SELECT * FROM \"orders\" LIMIT 100", "sql")
    ∧ DashboardGenerationOrchestrator._get_fallback_query "csv" ⟨[]⟩
      = ("df.head(100)", "pandas") :=
  ⟨(((c3_fallback_query_amended "postgresql" ⟨[⟨"orders"⟩]⟩).1 rfl).2
      ⟨"orders"⟩ [] rfl).1 (by decide),
   (c3_fallback_query_amended "csv" ⟨[]⟩).2 (by decide)⟩

/-- C8: the default visualization generator binds the first column as the
x-axis data key, the second column (or the first when only one exists) as
the y-axis and sole series data key, uses chart type `bar`, enables
legend, tooltip and grid, its axis/series bindings do not depend on the
question text, and the Bedrock variant is the same function. -/
theorem c8_default_visualization (c1 : String) (rest : List String)
    (nl nl' : String) :
    (AnthropicProvider._get_default_visualization (c1 :: rest) nl).path ["chart_type"]
      = some (.str "bar")
    ∧ (AnthropicProvider._get_default_visualization (c1 :: rest) nl).path
        ["chart_config", "x_axis", "data_key"] = some (.str c1)
    ∧ (AnthropicProvider._get_default_visualization (c1 :: rest) nl).path
        ["chart_config", "y_axis", "data_key"] = some (.str (rest.headD c1))
    ∧ (AnthropicProvider._get_default_visualization (c1 :: rest) nl).path
        ["chart_config", "series"]
      = some (.arr [.obj [("data_key", .str (rest.headD c1)),
                          ("name", .str (rest.headD c1)),
                          ("color", .str "#8884d8")]])
    ∧ (AnthropicProvider._get_default_visualization (c1 :: rest) nl).path
        ["chart_config", "legend"] = some (.bool true)
    ∧ (AnthropicProvider._get_default_visualization (c1 :: rest) nl).path
        ["chart_config", "tooltip"] = some (.bool true)
    ∧ (AnthropicProvider._get_default_visualization (c1 :: rest) nl).path
        ["chart_config", "grid"] = some (.bool true)
    ∧ (AnthropicProvider._get_default_visualization (c1 :: rest) nl).lookupKey
        "chart_config"
      = (AnthropicProvider._get_default_visualization (c1 :: rest) nl').lookupKey
        "chart_config"
    ∧ ∀ (columns : List String) (question : String),
        BedrockProvider._get_default_visualization columns question
          = AnthropicProvider._get_default_visualization columns question := by
  cases rest with
  | nil => exact ⟨rfl, rfl, rfl, rfl, rfl, rfl, rfl, rfl, fun _ _ => rfl⟩
  | cons c2 rest' => exact ⟨rfl, rfl, rfl, rfl, rfl, rfl, rfl, rfl, fun _ _ => rfl⟩


/-- Evaluation of the materializer on an empty frame. -/
lemma dataframe_to_dict_of_empty (df : DataFrame) (h : df.empty = true) :
    DataProcessor.dataframe_to_dict df = ⟨df.columns, [], 0⟩ := by
  simp [DataProcessor.dataframe_to_dict, h]

/-- Evaluation of the materializer on a nonempty frame. -/
lemma dataframe_to_dict_of_nonempty (df : DataFrame) (h : df.empty = false) :
    DataProcessor.dataframe_to_dict df
      = ⟨df.columns,
         df.rows.map (fun row => (df.columns.zip row).map (fun p => (p.1, cleanCell p.2))),
         df.rows.length⟩ := by
  simp [DataProcessor.dataframe_to_dict, h]

/-- C4: the materialized structure has `row_count = len(rows)`, preserves
the column list, gives every row exactly the columns as keys, replaces
missing cells by null and timestamps by their isoformat strings, and maps
an empty DataFrame to no rows with `row_count = 0` (the association-list
row model matches the Python `dict` rows when column names are distinct,
hence the `Nodup` hypothesis). -/
theorem c4_dataframe_to_dict (df : DataFrame) (hnd : df.columns.Nodup) :
    (DataProcessor.dataframe_to_dict df).row_count
      = (DataProcessor.dataframe_to_dict df).rows.length
    ∧ (DataProcessor.dataframe_to_dict df).columns = df.columns
    ∧ (∀ r ∈ (DataProcessor.dataframe_to_dict df).rows, r.map Prod.fst = df.columns)
    ∧ (df.empty = false →
        (DataProcessor.dataframe_to_dict df).rows
          = df.rows.map (fun row =>
              (df.columns.zip row).map (fun p => (p.1, cleanCell p.2))))
    ∧ cleanCell CellValue.nan = JsonCell.null
    ∧ (∀ iso, cleanCell (CellValue.timestamp iso) = JsonCell.str iso)
    ∧ (df.empty = true →
        (DataProcessor.dataframe_to_dict df).rows = []
        ∧ (DataProcessor.dataframe_to_dict df).row_count = 0) := by
  cases h : df.empty with
  | true =>
    rw [dataframe_to_dict_of_empty df h]
    refine ⟨rfl, rfl, ?_, ?_, rfl, fun _ => rfl, fun _ => ⟨rfl, rfl⟩⟩
    · intro r hr
      exact absurd hr (List.not_mem_nil r)
    · intro h'
      exact absurd h' (by simp)
  | false =>
    rw [dataframe_to_dict_of_nonempty df h]
    refine ⟨by simp, rfl, ?_, fun _ => rfl, rfl, fun _ => rfl, ?_⟩
    · intro r hr
      simp only [List.mem_map] at hr
      obtain ⟨row, hrow, rfl⟩ := hr
      calc ((df.columns.zip row).map fun p => (p.1, cleanCell p.2)).map Prod.fst
          = (df.columns.zip row).map Prod.fst := by
            rw [List.map_map]; rfl
        _ = df.columns := List.map_fst_zip _ _ (le_of_eq (df.hrows row hrow).symm)
    · intro h'
      exact absurd h' (by simp)

/-- Concrete two-column frame with a missing cell and a timestamp cell. -/
def c4df : DataFrame :=
  ⟨["a", "b"], [[CellValue.nan, CellValue.timestamp "2024-01-01T00:00:00"]],
   by decide⟩

/-- C4 witness: evaluating the materializer on `c4df`. -/
theorem c4_witness :
    (DataProcessor.dataframe_to_dict c4df).row_count
      = (DataProcessor.dataframe_to_dict c4df).rows.length
    ∧ (DataProcessor.dataframe_to_dict c4df).rows
      = [[("a", JsonCell.null), ("b", JsonCell.str "2024-01-01T00:00:00")]] := by
  have h := c4_dataframe_to_dict c4df (by decide)
  refine ⟨h.1, ?_⟩
  rw [h.2.2.2.1 (by decide)]
  rfl

/-- C5: a dashboard with an empty data-source list makes `generate` raise
`GenerationNoDataSourcesError` naming the dashboard, with an empty call
trace (no connector or LLM call), for every environment. -/
theorem c5_empty_sources_fails_before_io (dashboard : DashboardRec)
    (h : dashboard.data_sources = []) (penv : Nat → SourceEnv)
    (reactGen : Except String ReactGenResult) (elapsedMs : Nat) :
    DashboardGenerationOrchestrator.generate dashboard penv reactGen elapsedMs
      = (.error (.noDataSources
          ("Dashboard '" ++ dashboard.title ++ "' has no associated data sources")),
         []) := by
  simp [DashboardGenerationOrchestrator.generate, h]

/-- Placeholder environment whose every call fails; the C5/C6 witnesses
use it to show the result does not depend on the environment. -/
def unusedSourceEnv : SourceEnv :=
  ⟨.error "unused", .error "unused", fun _ => .error "unused"⟩

/-- C5 witness: a concrete dashboard with no sources. -/
theorem c5_witness :
    DashboardGenerationOrchestrator.generate
        ⟨"d1", "Sales", none, []⟩ (fun _ => unusedSourceEnv) (.error "unused") 0
      = (.error (.noDataSources "Dashboard 'Sales' has no associated data sources"),
         []) :=
  c5_empty_sources_fails_before_io ⟨"d1", "Sales", none, []⟩ rfl
    (fun _ => unusedSourceEnv) (.error "unused") 0

/-- Skipping behaviour of the source loop: when every source is inactive
the loop accumulates nothing and makes no call. -/
lemma processSources_all_inactive (penv : Nat → SourceEnv)
    (l : List DataSourceRec) (i : Nat)
    (h : ∀ ds ∈ l, ds.is_active = false) :
    processSources penv l i = (.ok ([], [], [], []), []) := by
  induction l generalizing i with
  | nil => rfl
  | cons ds rest ih =>
    have hds : ds.is_active = false := h ds (List.mem_cons_self ds rest)
    have hrest : ∀ d ∈ rest, d.is_active = false :=
      fun d hd => h d (List.mem_cons_of_mem ds hd)
    simp [processSources, hds, ih (i + 1) hrest]

/-- C6: a dashboard whose sources are all inactive (and nonempty) makes
`generate` skip every source (empty call trace, so inactive sources are
never processed) and raise the "No active data sources available" error,
not a partial or empty success. -/
theorem c6_all_inactive_fails (dashboard : DashboardRec)
    (hne : dashboard.data_sources ≠ [])
    (hinact : ∀ ds ∈ dashboard.data_sources, ds.is_active = false)
    (penv : Nat → SourceEnv) (reactGen : Except String ReactGenResult)
    (elapsedMs : Nat) :
    DashboardGenerationOrchestrator.generate dashboard penv reactGen elapsedMs
      = (.error (.noDataSources "No active data sources available for generation"),
         []) := by
  have hproc := processSources_all_inactive penv dashboard.data_sources 0 hinact
  simp [DashboardGenerationOrchestrator.generate, hne, hproc]

/-- C6 witness: one inactive source, zero active ones. -/
theorem c6_witness :
    DashboardGenerationOrchestrator.generate
        ⟨"d1", "Sales", none, [⟨"s1", "orders", "postgresql", false⟩]⟩
        (fun _ => unusedSourceEnv) (.error "unused") 0
      = (.error (.noDataSources "No active data sources available for generation"),
         []) :=
  c6_all_inactive_fails _ (by decide) (by decide) (fun _ => unusedSourceEnv)
    (.error "unused") 0

/-- Failure propagation in the source loop: if the first active source
whose processing is attempted and fails sits at position `k` (all earlier
active sources succeed), the loop's result is the
`GenerationQueryExecutionError` naming that source with the underlying
error. -/
lemma processSources_fail (penv : Nat → SourceEnv) (l : List DataSourceRec)
    (i k : Nat) (hk : k < l.length) (e : String)
    (hact : (l.get ⟨k, hk⟩).is_active = true)
    (hfail : DashboardGenerationOrchestrator._process_data_source
        (l.get ⟨k, hk⟩) (penv (i + k)) = .error e)
    (hpre : ∀ j (hj : j < l.length), j < k →
        (l.get ⟨j, hj⟩).is_active = true →
        ∃ v, DashboardGenerationOrchestrator._process_data_source
            (l.get ⟨j, hj⟩) (penv (i + j)) = .ok v) :
    (processSources penv l i).1
      = .error (.queryExecution
          ("Failed to process data source '" ++ (l.get ⟨k, hk⟩).name ++ "'") e) := by
  induction l generalizing i k with
  | nil => exact absurd hk (by simp)
  | cons ds rest ih =>
    cases k with
    | zero =>
      simp only [List.get] at hact hfail ⊢
      have hfail' : DashboardGenerationOrchestrator._process_data_source ds (penv i)
          = .error e := by simpa using hfail
      simp [processSources, hact, hfail']
    | succ k' =>
      cases hda : ds.is_active with
      | false =>
        have hk' : k' < rest.length := by
          simpa using hk
        have hfail' : DashboardGenerationOrchestrator._process_data_source
            (rest.get ⟨k', hk'⟩) (penv ((i + 1) + k')) = .error e := by
          have harith : (i + 1) + k' = i + (k' + 1) := by omega
          rw [harith]
          simpa using hfail
        have hpre' : ∀ j (hj : j < rest.length), j < k' →
            (rest.get ⟨j, hj⟩).is_active = true →
            ∃ v, DashboardGenerationOrchestrator._process_data_source
                (rest.get ⟨j, hj⟩) (penv ((i + 1) + j)) = .ok v := by
          intro j hj hjk hjact
          have harith : (i + 1) + j = i + (j + 1) := by omega
          rw [harith]
          exact hpre (j + 1) (by simpa using Nat.succ_lt_succ hj)
            (Nat.succ_lt_succ hjk) (by simpa using hjact)
        have hact' : (rest.get ⟨k', hk'⟩).is_active = true := by simpa using hact
        have := ih (i + 1) k' hk' hact' hfail' hpre'
        simpa [processSources, hda] using this
      | true =>
        have h0 : (0 : Nat) < (ds :: rest).length := by simp
        obtain ⟨v, hv⟩ := hpre 0 h0 (Nat.succ_pos k') (by simpa using hda)
        obtain ⟨schema_info, sample_data, query_info⟩ := v
        have hv' : DashboardGenerationOrchestrator._process_data_source ds (penv i)
            = .ok (schema_info, sample_data, query_info) := by simpa using hv
        have hk' : k' < rest.length := by simpa using hk
        have hfail' : DashboardGenerationOrchestrator._process_data_source
            (rest.get ⟨k', hk'⟩) (penv ((i + 1) + k')) = .error e := by
          have harith : (i + 1) + k' = i + (k' + 1) := by omega
          rw [harith]
          simpa using hfail
        have hpre' : ∀ j (hj : j < rest.length), j < k' →
            (rest.get ⟨j, hj⟩).is_active = true →
            ∃ v, DashboardGenerationOrchestrator._process_data_source
                (rest.get ⟨j, hj⟩) (penv ((i + 1) + j)) = .ok v := by
          intro j hj hjk hjact
          have harith : (i + 1) + j = i + (j + 1) := by omega
          rw [harith]
          exact hpre (j + 1) (by simpa using Nat.succ_lt_succ hj)
            (Nat.succ_lt_succ hjk) (by simpa using hjact)
        have hact' : (rest.get ⟨k', hk'⟩).is_active = true := by simpa using hact
        have hrec := ih (i + 1) k' hk' hact' hfail' hpre'
        simp only [processSources, hda, if_pos, hv']
        simp [hrec]

/-- C2: if processing an active data source is attempted and fails (all
earlier active sources having succeeded), the whole generation request
fails with `GenerationQueryExecutionError` naming that source and the
underlying error, and no successful response (hence no partial data) is
returned. -/
theorem c2_source_failure_aborts_generation
    (dashboard : DashboardRec) (penv : Nat → SourceEnv)
    (reactGen : Except String ReactGenResult) (elapsedMs : Nat)
    (k : Nat) (hk : k < dashboard.data_sources.length) (e : String)
    (hact : (dashboard.data_sources.get ⟨k, hk⟩).is_active = true)
    (hfail : DashboardGenerationOrchestrator._process_data_source
        (dashboard.data_sources.get ⟨k, hk⟩) (penv k) = .error e)
    (hpre : ∀ j (hj : j < dashboard.data_sources.length), j < k →
        (dashboard.data_sources.get ⟨j, hj⟩).is_active = true →
        ∃ v, DashboardGenerationOrchestrator._process_data_source
            (dashboard.data_sources.get ⟨j, hj⟩) (penv j) = .ok v) :
    (DashboardGenerationOrchestrator.generate dashboard penv reactGen elapsedMs).1
      = .error (.queryExecution
          ("Failed to process data source '"
            ++ (dashboard.data_sources.get ⟨k, hk⟩).name ++ "'") e)
    ∧ ∀ resp, (DashboardGenerationOrchestrator.generate
        dashboard penv reactGen elapsedMs).1 ≠ .ok resp := by
  have hfail0 : DashboardGenerationOrchestrator._process_data_source
      (dashboard.data_sources.get ⟨k, hk⟩) (penv (0 + k)) = .error e := by
    simpa [Nat.zero_add] using hfail
  have hpre0 : ∀ j (hj : j < dashboard.data_sources.length), j < k →
      (dashboard.data_sources.get ⟨j, hj⟩).is_active = true →
      ∃ v, DashboardGenerationOrchestrator._process_data_source
          (dashboard.data_sources.get ⟨j, hj⟩) (penv (0 + j)) = .ok v := by
    intro j hj hjk hja
    simpa [Nat.zero_add] using hpre j hj hjk hja
  have hmain := processSources_fail penv dashboard.data_sources 0 k hk e hact hfail0 hpre0
  have hne : dashboard.data_sources ≠ [] := by
    intro h
    rw [h] at hk
    simp at hk
  have hie : dashboard.data_sources.isEmpty = false := by
    cases h2 : dashboard.data_sources with
    | nil => exact absurd h2 hne
    | cons a l => rfl
  have h1 : (DashboardGenerationOrchestrator.generate dashboard penv reactGen elapsedMs).1
      = .error (.queryExecution
          ("Failed to process data source '"
            ++ (dashboard.data_sources.get ⟨k, hk⟩).name ++ "'") e) := by
    rcases hps : processSources penv dashboard.data_sources 0 with ⟨res, tr⟩
    rw [hps] at hmain
    simp only [DashboardGenerationOrchestrator.generate, hie, Bool.false_eq_true,
      if_false, hps]
    simp only at hmain
    rw [hmain]
  refine ⟨h1, fun resp hok => ?_⟩
  rw [h1] at hok
  exact Except.noConfusion hok

/-- Concrete one-row frame for the C2 witness's succeeding source. -/
def c2df : DataFrame := ⟨["id"], [[CellValue.int 1]], by decide⟩

/-- Environment of the C2 witness's succeeding source. -/
def c2okEnv : SourceEnv :=
  ⟨.ok ⟨[⟨"t1"⟩]⟩, .ok ⟨"Q1", "sql", "llm query"⟩, fun _ => .ok c2df⟩

/-- Environment of the C2 witness's failing source: its schema fetch
raises. -/
def c2failEnv : SourceEnv :=
  ⟨.error "boom", .error "unused", fun _ => .error "unused"⟩

/-- Dashboard of the C2 witness: two active sources, the second fails. -/
def c2dash : DashboardRec :=
  ⟨"d1", "Sales", none,
   [⟨"s1", "orders", "postgresql", true⟩, ⟨"s2", "users", "postgresql", true⟩]⟩

/-- Per-position environments of the C2 witness. -/
def c2penv : Nat → SourceEnv := fun i => if i = 0 then c2okEnv else c2failEnv

/-- C2 witness: with the first source succeeding and the second failing,
the request fails naming the second source. -/
theorem c2_witness :
    (DashboardGenerationOrchestrator.generate c2dash c2penv (.error "unused") 0).1
      = .error (.queryExecution "Failed to process data source 'users'" "boom") :=
  (c2_source_failure_aborts_generation c2dash c2penv (.error "unused") 0 1
    (by decide) "boom" rfl rfl
    (fun j hj hjk _ => by
      have hj0 : j = 0 := by omega
      subst hj0
      exact ⟨(⟨[⟨"t1"⟩]⟩, DataProcessor.dataframe_to_dict c2df,
              ⟨"Q1", "sql", "llm query"⟩), rfl⟩)).1

/-- Terminal shape of every `QueryExecutor.execute` run: elapsed time is
always stamped, and the run ends either completed (no error message) or
failed (with an error message), its status trace being exactly
`processing` followed by the terminal status. -/
lemma execute_shape (nl : String) (env : ExecEnv) :
    (QueryExecutor.execute nl env).execution_time_ms = some env.elapsedMs
    ∧ (((QueryExecutor.execute nl env).status = .completed
        ∧ (QueryExecutor.execute nl env).statusTrace
            = [Status.processing, Status.completed]
        ∧ (QueryExecutor.execute nl env).error_message = none)
      ∨ ((QueryExecutor.execute nl env).status = .failed
        ∧ (QueryExecutor.execute nl env).statusTrace
            = [Status.processing, Status.failed]
        ∧ ∃ e, (QueryExecutor.execute nl env).error_message = some e)) := by
  unfold QueryExecutor.execute
  repeat' split
  all_goals simp [failRun, completeRun]
  all_goals repeat' split
  all_goals simp

/-- No status assignment after a terminal one re-enters `processing`. -/
def terminalNoReenter (tr : List Status) : Prop :=
  ∀ a b (ha : a < tr.length) (hb : b < tr.length), a < b →
    (tr.get ⟨a, ha⟩ = Status.completed ∨ tr.get ⟨a, ha⟩ = Status.failed) →
    tr.get ⟨b, hb⟩ ≠ Status.processing

/-- A two-element trace starting at `processing` never re-enters
`processing` after a terminal status. -/
lemma pair_no_reenter (s : Status) : terminalNoReenter [Status.processing, s] := by
  intro a b ha hb hab hterm
  have hb2 : b < 2 := by simpa using hb
  have ha0 : a = 0 := by omega
  subst ha0
  have h0 : ([Status.processing, s]).get ⟨0, ha⟩ = Status.processing := rfl
  rw [h0] at hterm
  rcases hterm with h | h <;> exact absurd h (by decide)

/-- C9: every run of `QueryExecutor.execute` that ends `failed` has a
non-null `error_message` and a stamped `execution_time_ms`; the status
trace is exactly `processing` followed by one terminal status, so a run
never re-enters `processing` after reaching `completed` or `failed`. -/
theorem c9_executor_state_machine (nl : String) (env : ExecEnv) :
    ((QueryExecutor.execute nl env).status = .failed →
      (QueryExecutor.execute nl env).error_message ≠ none
      ∧ (QueryExecutor.execute nl env).execution_time_ms = some env.elapsedMs)
    ∧ ((QueryExecutor.execute nl env).statusTrace
          = [Status.processing, Status.completed]
       ∨ (QueryExecutor.execute nl env).statusTrace
          = [Status.processing, Status.failed])
    ∧ terminalNoReenter (QueryExecutor.execute nl env).statusTrace := by
  obtain ⟨htime, hcase⟩ := execute_shape nl env
  refine ⟨?_, ?_, ?_⟩
  · intro hfailed
    rcases hcase with ⟨hc, _, _⟩ | ⟨_, _, e, he⟩
    · rw [hc] at hfailed
      exact absurd hfailed (by decide)
    · refine ⟨?_, htime⟩
      rw [he]
      simp
  · rcases hcase with ⟨_, htr, _⟩ | ⟨_, htr, _⟩
    · exact Or.inl htr
    · exact Or.inr htr
  · rcases hcase with ⟨_, htr, _⟩ | ⟨_, htr, _⟩ <;> rw [htr] <;>
      exact pair_no_reenter _

/-- Environment of a run that fails at data-source resolution. -/
def c9env : ExecEnv :=
  { getDataSource := .error "No data source available"
    getSchema := .error "unused"
    generateQuery := .error "unused"
    executeQuery := fun _ => .error "unused"
    recommendViz := .error "unused"
    elapsedMs := 5 }

/-- C9 witness: a concrete failing run has its error message and elapsed
time recorded, and its trace is `processing` then `failed`. -/
theorem c9_witness :
    ((QueryExecutor.execute "list users" c9env).error_message ≠ none
      ∧ (QueryExecutor.execute "list users" c9env).execution_time_ms = some 5)
    ∧ (QueryExecutor.execute "list users" c9env).statusTrace
        = [Status.processing, Status.failed] :=
  ⟨(c9_executor_state_machine "list users" c9env).1 rfl,
   ((c9_executor_state_machine "list users" c9env).2.1).resolve_left (by decide)⟩

/-- One-row result frame that the fallback query would return. -/
def c1df : DataFrame := ⟨["id"], [[CellValue.int 1]], by decide⟩

/-- Environment of a single-query run whose LLM-generated query fails
execution while the fallback query (for a postgresql source with schema
table `orders`) would succeed. -/
def c1env : ExecEnv :=
  { getDataSource := .ok ⟨"ds1", "orders source", "postgresql", true⟩
    getSchema := .ok ⟨[⟨"orders"⟩]⟩
    generateQuery := .ok ⟨"SELECT bogus FROM nowhere", "sql", "llm explanation"⟩
    executeQuery := fun q =>
      if q = "SELECT * FROM \"orders\" LIMIT 100" then .ok c1df
      else .error "ExecutionError: relation nowhere does not exist"
    recommendViz := .error "unused"
    elapsedMs := 7 }

/-- C1 counterexample: in `QueryExecutor.execute` the fallback policy is
never applied.  With the LLM query failing and the fallback query
succeeding on the same connector, the run ends `failed` with the original
execution error and the LLM query recorded — not `completed` with the
fallback query, as the claim states. -/
theorem c1_counterexample :
    c1env.executeQuery "SELECT * FROM \"orders\" LIMIT 100" = .ok c1df
    ∧ DashboardGenerationOrchestrator._get_fallback_query "postgresql" ⟨[⟨"orders"⟩]⟩
        = ("SELECT * FROM \"orders\" LIMIT 100", "sql")
    ∧ (QueryExecutor.execute "show orders" c1env).status = .failed
    ∧ (QueryExecutor.execute "show orders" c1env).status ≠ .completed
    ∧ (QueryExecutor.execute "show orders" c1env).error_message
        = some "ExecutionError: relation nowhere does not exist"
    ∧ (QueryExecutor.execute "show orders" c1env).generated_query
        = some "SELECT bogus FROM nowhere"
    ∧ (QueryExecutor.execute "show orders" c1env).generated_query
        ≠ some "SELECT * FROM \"orders\" LIMIT 100" := by
  refine ⟨rfl, rfl, by decide, by decide, by decide, by decide, by decide⟩

/-- C1 (amended): the Fallback Query Policy is applied only in the
Dashboard Generation Pipeline.  In `QueryExecutor.execute` a failed
execution of the LLM-generated query transitions the run directly to
`failed` with that error recorded and the LLM query kept; in
`_process_data_source` the fallback is executed exactly once against the
same connector, a success yielding the fallback query with the
fallback-marking explanation, a failure propagating the fallback's
error. -/
theorem c1_fallback_policy_amended :
    (∀ (nl : String) (env : ExecEnv) (ds : DataSourceRec)
        (llm : QueryInfoDict) (e : String),
      env.getDataSource = .ok ds →
      (∃ c, get_connector ds.source_type = .ok c) →
      (∃ s, env.getSchema = .ok s) →
      env.generateQuery = .ok llm →
      env.executeQuery llm.query = .error e →
      (QueryExecutor.execute nl env).status = .failed
      ∧ (QueryExecutor.execute nl env).error_message = some e
      ∧ (QueryExecutor.execute nl env).generated_query = some llm.query
      ∧ (QueryExecutor.execute nl env).execution_time_ms = some env.elapsedMs)
    ∧ (∀ (ds : DataSourceRec) (env : SourceEnv) (schema : SchemaDict)
        (qi : QueryInfoDict) (e1 : String),
      (∃ c, get_connector ds.source_type = .ok c) →
      env.getSchema = .ok schema →
      env.generateQuery = .ok qi →
      env.executeQuery qi.query = .error e1 →
      (∀ df, env.executeQuery
          (DashboardGenerationOrchestrator._get_fallback_query
            ds.source_type schema).1 = .ok df →
        DashboardGenerationOrchestrator._process_data_source ds env
          = .ok (schema, DataProcessor.dataframe_to_dict df,
              ⟨(DashboardGenerationOrchestrator._get_fallback_query
                  ds.source_type schema).1,
               (DashboardGenerationOrchestrator._get_fallback_query
                  ds.source_type schema).2,
               "Fallback query (LLM query failed)"⟩))
      ∧ (∀ e2, env.executeQuery
          (DashboardGenerationOrchestrator._get_fallback_query
            ds.source_type schema).1 = .error e2 →
        DashboardGenerationOrchestrator._process_data_source ds env
          = .error e2)) := by
  constructor
  · intro nl env ds llm e hds hc hs hq hexec
    obtain ⟨c, hc⟩ := hc
    obtain ⟨s, hs⟩ := hs
    simp [QueryExecutor.execute, hds, hc, hs, hq, hexec, failRun]
  · intro ds env schema qi e1 hc hs hq hexec
    obtain ⟨c, hc⟩ := hc
    constructor
    · intro df hdf
      simp [DashboardGenerationOrchestrator._process_data_source,
        hc, hs, hq, hexec, hdf]
    · intro e2 he2
      simp [DashboardGenerationOrchestrator._process_data_source,
        hc, hs, hq, hexec, he2]

/-- Environment of one dashboard source whose LLM query fails and whose
fallback succeeds. -/
def c1senv : SourceEnv :=
  ⟨.ok ⟨[⟨"orders"⟩]⟩,
   .ok ⟨"SELECT bogus FROM nowhere", "sql", "llm explanation"⟩,
   fun q =>
     if q = "SELECT * FROM \"orders\" LIMIT 100" then .ok c1df
     else .error "ExecutionError: relation nowhere does not exist"⟩

/-- C1 witness: the amended behaviour at concrete inputs — the executor
run fails with the original error, and the dashboard pipeline's fallback
succeeds with the fallback-marking explanation. -/
theorem c1_witness :
    ((QueryExecutor.execute "show orders" c1env).status = .failed
      ∧ (QueryExecutor.execute "show orders" c1env).error_message
          = some "ExecutionError: relation nowhere does not exist")
    ∧ DashboardGenerationOrchestrator._process_data_source
        ⟨"ds1", "orders source", "postgresql", true⟩ c1senv
      = .ok (⟨[⟨"orders"⟩]⟩, DataProcessor.dataframe_to_dict c1df,
          ⟨"SELECT * FROM \"orders\" LIMIT 100", "sql",
           "Fallback query (LLM query failed)"⟩) := by
  have h1 := c1_fallback_policy_amended.1 "show orders" c1env
    ⟨"ds1", "orders source", "postgresql", true⟩
    ⟨"SELECT bogus FROM nowhere", "sql", "llm explanation"⟩
    "ExecutionError: relation nowhere does not exist"
    rfl ⟨ConnectorKind.postgresql, rfl⟩ ⟨⟨[⟨"orders"⟩]⟩, rfl⟩ rfl rfl
  have h2 := (c1_fallback_policy_amended.2
    ⟨"ds1", "orders source", "postgresql", true⟩ c1senv ⟨[⟨"orders"⟩]⟩
    ⟨"SELECT bogus FROM nowhere", "sql", "llm explanation"⟩
    "ExecutionError: relation nowhere does not exist"
    ⟨ConnectorKind.postgresql, rfl⟩ rfl rfl rfl).1 c1df rfl
  exact ⟨⟨h1.1, h1.2.1⟩, h2⟩

/-- Materialized one-row result used by the C7 counterexample. -/
def c7rd : TabularDict := ⟨["a"], [[("a", JsonCell.int 5)]], 1⟩

/-- One-row frame whose materialization is `c7rd`. -/
def c7df : DataFrame := ⟨["a"], [[CellValue.int 5]], by decide⟩

/-- Environment of a single-query run whose pipeline succeeds and whose
visualization call returns a response that parsed to the JSON number 42
(what `recommend_visualization` hands back for such a response). -/
def c7env : ExecEnv :=
  { getDataSource := .ok ⟨"ds1", "orders source", "postgresql", true⟩
    getSchema := .ok ⟨[⟨"orders"⟩]⟩
    generateQuery := .ok ⟨"SELECT 5 AS a", "sql", "llm explanation"⟩
    executeQuery := fun _ => .ok c7df
    recommendViz := .ok (.num 42)
    elapsedMs := 3 }

/-- C7 counterexample: a response that parses to the JSON number 42 is not
the expected structure, yet `recommend_visualization` returns it as-is
rather than the default-generator's output; fed into the executor, the
truthy non-dict value makes the `Visualization` construction raise, so the
run fails and no visualization spec is produced even though the result has
one row. -/
theorem c7_counterexample :
    AnthropicProvider.recommend_visualization c7rd "q" (.ok (some (.num 42)))
      = .ok (.num 42)
    ∧ (.ok (Json.num 42) : Except String Json)
        ≠ .ok (AnthropicProvider._get_default_visualization ["a"] "q")
    ∧ (DataProcessor.dataframe_to_dict c7df).row_count = 1
    ∧ (QueryExecutor.execute "q" c7env).status = .failed
    ∧ (QueryExecutor.execute "q" c7env).status ≠ .completed
    ∧ (QueryExecutor.execute "q" c7env).visualization = none := by
  refine ⟨rfl, ?_, by decide, by decide, by decide, rfl⟩
  intro h
  injection h with h'
  exact Json.noConfusion h'

/-- C7 (amended): on a JSON parse failure `recommend_visualization`
returns the deterministic default-generator's output without raising, but
a response that parses to any JSON value is returned as-is with no
structural validation; in the executor, an exception raised by the
visualization call is caught by `_generate_visualization` (returning
`None`), so such a raise never fails the run — the run completes with no
visualization spec rather than always producing one. -/
theorem c7_leniency_amended :
    (∀ (query_result : TabularDict) (nl : String),
      AnthropicProvider.recommend_visualization query_result nl (.ok none)
        = .ok (AnthropicProvider._get_default_visualization query_result.columns nl))
    ∧ (∀ (query_result : TabularDict) (nl : String) (j : Json),
      AnthropicProvider.recommend_visualization query_result nl (.ok (some j))
        = .ok j)
    ∧ (∀ (nl : String) (env : ExecEnv) (err : String)
        (ds : DataSourceRec) (llm : QueryInfoDict) (df : DataFrame),
      env.recommendViz = .error err →
      env.getDataSource = .ok ds →
      (∃ c, get_connector ds.source_type = .ok c) →
      (∃ s, env.getSchema = .ok s) →
      env.generateQuery = .ok llm →
      env.executeQuery llm.query = .ok df →
      (QueryExecutor.execute nl env).status = .completed
      ∧ (QueryExecutor.execute nl env).visualization = none) := by
  refine ⟨fun _ _ => rfl, fun _ _ _ => rfl, ?_⟩
  intro nl env err ds llm df herr hds hc hs hq hdf
  obtain ⟨c, hc⟩ := hc
  obtain ⟨s, hs⟩ := hs
  simp only [QueryExecutor.execute, hds, hc, hs, hq, hdf, herr]
  split <;> simp [completeRun]

/-- Environment of a single-query run whose visualization call raises. -/
def c7wenv : ExecEnv :=
  { getDataSource := .ok ⟨"ds1", "orders source", "postgresql", true⟩
    getSchema := .ok ⟨[⟨"orders"⟩]⟩
    generateQuery := .ok ⟨"SELECT 5 AS a", "sql", "llm explanation"⟩
    executeQuery := fun _ => .ok c7df
    recommendViz := .error "connection reset"
    elapsedMs := 3 }

/-- C7 witness: parse failure returns the default concretely, and a
raising visualization call still lets the concrete run complete. -/
theorem c7_witness :
    AnthropicProvider.recommend_visualization c7rd "q" (.ok none)
      = .ok (AnthropicProvider._get_default_visualization ["a"] "q")
    ∧ (QueryExecutor.execute "q" c7wenv).status = .completed
    ∧ (QueryExecutor.execute "q" c7wenv).visualization = none := by
  have h1 := c7_leniency_amended.1 c7rd "q"
  have h3 := c7_leniency_amended.2.2 "q" c7wenv "connection reset"
    ⟨"ds1", "orders source", "postgresql", true⟩
    ⟨"SELECT 5 AS a", "sql", "llm explanation"⟩ c7df
    rfl rfl ⟨ConnectorKind.postgresql, rfl⟩ ⟨⟨[⟨"orders"⟩]⟩, rfl⟩ rfl rfl
  exact ⟨h1, h3.1, h3.2⟩
